import Mathlib

/-!
Verification of the SpeakerUp device-enumeration-and-volume-control façade
(`src/a.py`, class `SpeakerUp`) against its natural-language specification.

The façade is embedded shallowly:

* The OS audio collaborator (PowerShell invoked through `subprocess.run`) is an
  explicit input.  For enumeration the input is the outcome of the query
  (`EnumResult`); for volume setting it is a flag saying whether the
  PowerShell process exits with status zero (`osOk`), since the generated
  scripts themselves exit 0 even when they print "Device not found".
* Object state (`self.devices`) is an explicit `SpeakerUpState` value threaded
  through the operations.
* OS calls performed by an operation are returned explicitly as a list of
  `OSCall` records, so that "issues no OS call" and "issues exactly one OS
  call" are statable.
* Python's fractional division `volume / 100`, interpolated textually into the
  PowerShell script, is modelled as the exact rational `volume / 100`; for
  integer `volume` in [0, 100] the interpolated decimal text denotes exactly
  this rational.
-/

/-- One playback endpoint as stored in `self.devices`: a record with the JSON
keys `Index`, `Name`, `Default` produced by the PowerShell query
(src/a.py lines 23-26) or by the fallback (line 56). -/
structure Device where
  index : Int
  name : String
  default : Bool
deriving DecidableEq

/-- The mutable state of a `SpeakerUp` object: just `self.devices`
(src/a.py line 17). -/
structure SpeakerUpState where
  devices : List Device
deriving DecidableEq

/-- Parsed shape of the primary query's stdout after `json.loads`
(src/a.py line 35): a JSON list of device records, a single device record
(PowerShell unwraps one-element pipelines), or something that fails to parse. -/
inductive PSOutput where
  | objList (ds : List Device)
  | singleObj (d : Device)
  | malformed
deriving DecidableEq

/-- Outcome of running the enumeration subprocess (src/a.py lines 28-33):
the process ran and produced stdout, exited non-zero
(`subprocess.CalledProcessError`, since `check=True`), or the `powershell`
executable was absent (`FileNotFoundError`). -/
inductive EnumResult where
  | success (out : PSOutput)
  | nonZeroExit
  | fileNotFound
deriving DecidableEq

/-- Keyword arguments of a `subprocess.run` call site.  Both call sites in
src/a.py pass `capture_output=True, text=True, check=True` and no `timeout`. -/
structure SubprocessConfig where
  captureOutput : Bool
  text : Bool
  check : Bool
  timeout : Option Nat
deriving DecidableEq

/-- The `subprocess.run` keyword arguments of the enumeration query
(src/a.py lines 28-33).  No `timeout` keyword is passed. -/
def enumQueryConfig : SubprocessConfig :=
  { captureOutput := true, text := true, check := true, timeout := none }

/-- The `subprocess.run` keyword arguments of the volume-setting call
(src/a.py lines 137-142).  No `timeout` keyword is passed. -/
def setVolumeConfig : SubprocessConfig :=
  { captureOutput := true, text := true, check := true, timeout := none }

/-- The synthetic record installed by the fallback,
`{"Index": 0, "Name": "Default Audio Device", "Default": True}`
(src/a.py line 56). -/
def fallbackDevice : Device :=
  { index := 0, name := "Default Audio Device", default := true }

/-- `SpeakerUp._get_devices_fallback` (src/a.py lines 46-61): sets
`self.devices` to the single synthetic record and returns `True`.  Its `try`
body is two statements that cannot raise (a string literal and a list
assignment), so the `except` branch returning `False` is unreachable. -/
def getDevicesFallback (s : SpeakerUpState) : Bool × SpeakerUpState :=
  (true, { s with devices := [fallbackDevice] })

/-- `SpeakerUp.get_audio_devices` (src/a.py lines 19-44): runs the PowerShell
query, parses its stdout with `json.loads`, wraps a non-list result in a
one-element list, stores the result in `self.devices` and returns `True`;
on `CalledProcessError`, `JSONDecodeError` or `FileNotFoundError` it returns
`self._get_devices_fallback()`. -/
def get_audio_devices (s : SpeakerUpState) (os : EnumResult) : Bool × SpeakerUpState :=
  match os with
  | .success (.objList ds) => (true, { s with devices := ds })
  | .success (.singleObj d) => (true, { s with devices := [d] })
  | .success .malformed => getDevicesFallback s
  | .nonZeroExit => getDevicesFallback s
  | .fileNotFound => getDevicesFallback s

/-- `True` exactly when the primary enumeration path raises one of the three
exceptions caught at src/a.py line 42: non-zero exit, malformed stdout, or a
missing `powershell` executable. -/
def primaryFails : EnumResult → Bool
  | .success (.objList _) => false
  | .success (.singleObj _) => false
  | .success .malformed => true
  | .nonZeroExit => true
  | .fileNotFound => true

/-- `SpeakerUp.list_devices` (src/a.py lines 63-77): if `self.devices` is
empty (falsy) it first calls `get_audio_devices`, returning `False` if that
fails; then it prints the list and returns `True`.  The printing reads the
list without modifying it. -/
def list_devices (s : SpeakerUpState) (os : EnumResult) : Bool × SpeakerUpState :=
  if s.devices.isEmpty then
    let r := get_audio_devices s os
    if r.1 = false then (false, r.2) else (true, r.2)
  else (true, s)

/-- One OS call issued by `set_volume`: the volume fraction interpolated into
the generated PowerShell script (`{volume / 100}`, src/a.py lines 92 and 134)
and the targeted device index (`Get-AudioDevice -Index {device_index}`,
line 89), or `none` for the default-endpoint script. -/
structure OSCall where
  fraction : Rat
  target : Option Int
deriving DecidableEq

/-- Python list indexing `l[i]` for `i : Int`: non-negative indices from the
front, negative indices from the end, `none` when Python raises `IndexError`. -/
def pyGet (l : List Device) (i : Int) : Option Device :=
  if 0 ≤ i then l.get? i.toNat
  else if (l.length : Int) + i < 0 then none
  else l.get? ((l.length : Int) + i).toNat

/-- Result of `SpeakerUp.set_volume`:
`outOfRange` — returned `False` at the range check (src/a.py lines 81-83);
`ok name` — returned `True` after printing the confirmation naming `name`
(lines 144-149);
`platformRejected` — returned `False` from the `CalledProcessError` handler
(lines 151-153);
`indexError` — the name lookup `self.devices[device_index]` (line 146) raised
an uncaught `IndexError`. -/
inductive SetVolumeResult where
  | outOfRange
  | ok (name : String)
  | platformRejected
  | indexError
deriving DecidableEq

/-- `SpeakerUp.set_volume` (src/a.py lines 79-153).  `osOk` tells whether the
single `subprocess.run` of the generated script exits with status zero; both
generated scripts exit zero whenever PowerShell runs them, even when the
targeted script prints "Device not found" instead of setting the volume.
Returns the result, the list of OS calls issued, and the final object state.
Note there is no bounds check on `device_index` before the OS call, and the
name lookup guards only `device_index < len(self.devices)` before Python
indexing. -/
def set_volume (s : SpeakerUpState) (osOk : Bool) (volume : Int)
    (device_index : Option Int) : SetVolumeResult × List OSCall × SpeakerUpState :=
  if volume < 0 ∨ 100 < volume then (.outOfRange, [], s)
  else
    let call : OSCall := { fraction := (volume : Rat) / 100, target := device_index }
    if osOk then
      match device_index with
      | none => (.ok "Default Device", [call], s)
      | some i =>
        if i < (s.devices.length : Int) then
          match pyGet s.devices i with
          | some d => (.ok d.name, [call], s)
          | none => (.indexError, [call], s)
        else (.ok "Default Device", [call], s)
    else (.platformRejected, [call], s)

/-- Spec-side name resolution for the success acknowledgment, following the
specification's words (spec.md section 4.2): "the name is looked up from the
last enumeration snapshot ..., defaulting to a generic Default Device label if
no snapshot exists or the index cannot be resolved to a name", where an index
is the 0-based ordinal of an entry of the current DeviceList. -/
def resolveNameSpec (devices : List Device) (t : Option Int) : String :=
  match t with
  | none => "Default Device"
  | some i =>
    if h : 0 ≤ i ∧ i.toNat < devices.length then
      (devices.get ⟨i.toNat, h.2⟩).name
    else "Default Device"

/-- Name resolution as the code performs it on paths that return `True`:
Python list indexing of the snapshot, so negative indices resolve from the
end of the list. -/
def resolveNamePy (devices : List Device) (t : Option Int) : String :=
  match t with
  | none => "Default Device"
  | some i =>
    match pyGet devices i with
    | some d => d.name
    | none => "Default Device"

/-- `get_audio_devices` always reports success: every failure of the primary
path is converted into the fallback, which returns `True`. -/
theorem get_audio_devices_fst (s : SpeakerUpState) (os : EnumResult) :
    (get_audio_devices s os).1 = true := by
  cases os with
  | success out => cases out <;> rfl
  | nonZeroExit => rfl
  | fileNotFound => rfl

/-- An index at or past the end of the list is not a Python index of it. -/
theorem pyGet_eq_none_of_le (l : List Device) (i : Int)
    (h : (l.length : Int) ≤ i) : pyGet l i = none := by
  have h0 : 0 ≤ i := by omega
  simp [pyGet, h0, List.get?_eq_none]
  omega

/-- C1: for every integer percent outside [0, 100] and every target,
`set_volume` returns `False` (`outOfRange`) and issues no OS call: the range
check precedes any external invocation. -/
theorem set_volume_rejects_out_of_range (s : SpeakerUpState) (osOk : Bool)
    (p : Int) (t : Option Int) (h : p < 0 ∨ 100 < p) :
    (set_volume s osOk p t).1 = .outOfRange ∧ (set_volume s osOk p t).2.1 = [] := by
  unfold set_volume
  rw [if_pos h]
  exact ⟨rfl, rfl⟩

theorem set_volume_rejects_out_of_range_witness :
    (set_volume ⟨[]⟩ true 150 none).1 = .outOfRange ∧
    (set_volume ⟨[]⟩ true 150 none).2.1 = [] :=
  set_volume_rejects_out_of_range ⟨[]⟩ true 150 none (by decide)

/-- C2, counterexample: with an empty last enumeration, index 0 is out of
bounds, yet `set_volume 50 (some 0)` with a healthy OS issues one OS call and
returns `True` (acknowledging "Default Device") rather than failing fast with
a device-not-found error and no OS call. -/
theorem set_volume_out_of_bounds_counterexample :
    (set_volume ⟨[]⟩ true 50 (some 0)).1 = .ok "Default Device" ∧
    (set_volume ⟨[]⟩ true 50 (some 0)).2.1.length = 1 := by
  exact ⟨rfl, rfl⟩

/-- C2, amended: for an index at or past the end of the most recent
DeviceList, `set_volume` performs no bounds check of its own: it issues
exactly one OS call carrying that index (the generated script performs the
existence check and prints "Device not found" without setting the volume),
and returns `True` with the generic "Default Device" acknowledgment. -/
theorem set_volume_out_of_bounds_delegates (s : SpeakerUpState) (p i : Int)
    (h0 : 0 ≤ p) (h1 : p ≤ 100) (hi : (s.devices.length : Int) ≤ i) :
    (set_volume s true p (some i)).1 = .ok "Default Device" ∧
    (set_volume s true p (some i)).2.1 = [⟨(p : Rat) / 100, some i⟩] := by
  have hp : ¬ (p < 0 ∨ 100 < p) := by omega
  have hlt : ¬ i < (s.devices.length : Int) := by omega
  unfold set_volume
  rw [if_neg hp]
  simp [hlt]

theorem set_volume_out_of_bounds_delegates_witness :
    (set_volume ⟨[]⟩ true 50 (some 0)).1 = .ok "Default Device" ∧
    (set_volume ⟨[]⟩ true 50 (some 0)).2.1 = [⟨(50 : Rat) / 100, some 0⟩] :=
  set_volume_out_of_bounds_delegates ⟨[]⟩ 50 0 (by decide) (by decide) (by decide)

/-- C3: whenever the primary enumeration path fails (non-zero exit, malformed
output, or a missing query facility), `get_audio_devices` — and hence
`list_devices` starting from an empty snapshot — returns success with the
device list consisting of exactly the one synthetic device, which has
`Default = true` and `Index = 0`; the fallback never propagates the error. -/
theorem enumeration_fallback (s : SpeakerUpState) (os : EnumResult)
    (h : primaryFails os = true) :
    get_audio_devices s os = (true, ⟨[fallbackDevice]⟩) ∧
    list_devices ⟨[]⟩ os = (true, ⟨[fallbackDevice]⟩) ∧
    fallbackDevice.default = true ∧ fallbackDevice.index = 0 := by
  cases os with
  | success out =>
    cases out with
    | objList ds => simp [primaryFails] at h
    | singleObj d => simp [primaryFails] at h
    | malformed => exact ⟨rfl, rfl, rfl, rfl⟩
  | nonZeroExit => exact ⟨rfl, rfl, rfl, rfl⟩
  | fileNotFound => exact ⟨rfl, rfl, rfl, rfl⟩

theorem enumeration_fallback_witness :
    get_audio_devices ⟨[]⟩ .nonZeroExit = (true, ⟨[fallbackDevice]⟩) ∧
    list_devices ⟨[]⟩ .nonZeroExit = (true, ⟨[fallbackDevice]⟩) ∧
    fallbackDevice.default = true ∧ fallbackDevice.index = 0 :=
  enumeration_fallback ⟨[]⟩ .nonZeroExit (by decide)

/-- C4: a single device object returned by the OS query is normalized into a
one-element device list and reported as success, not as an error; a returned
list of devices is stored as-is (same elements, same order, flags
preserved). -/
theorem get_audio_devices_normalizes (s : SpeakerUpState) (d : Device)
    (ds : List Device) :
    get_audio_devices s (.success (.singleObj d)) = (true, ⟨[d]⟩) ∧
    get_audio_devices s (.success (.objList ds)) = (true, ⟨ds⟩) :=
  ⟨rfl, rfl⟩

/-- C5: for every percent in [0, 100] and a resolving target (absent, or an
in-bounds index), `set_volume` issues exactly one OS call, is not rejected on
range grounds, and the volume value interpolated into the script is the
normalized fraction p/100 ∈ [0, 1]; the same p/100 convention serves both the
targeted and the default-endpoint script. -/
theorem set_volume_in_range_one_call (s : SpeakerUpState) (osOk : Bool)
    (p : Int) (t : Option Int) (h0 : 0 ≤ p) (h1 : p ≤ 100)
    (ht : t = none ∨ ∃ i, t = some i ∧ 0 ≤ i ∧ i < (s.devices.length : Int)) :
    (set_volume s osOk p t).2.1 = [⟨(p : Rat) / 100, t⟩] ∧
    (set_volume s osOk p t).1 ≠ .outOfRange ∧
    0 ≤ (p : Rat) / 100 ∧ (p : Rat) / 100 ≤ 1 := by
  have hp : ¬ (p < 0 ∨ 100 < p) := by omega
  have hfrac0 : (0 : Rat) ≤ (p : Rat) / 100 := by
    apply div_nonneg _ (by norm_num)
    exact_mod_cast h0
  have hfrac1 : (p : Rat) / 100 ≤ 1 := by
    rw [div_le_one (by norm_num)]
    exact_mod_cast h1
  unfold set_volume
  rw [if_neg hp]
  cases osOk with
  | false => exact ⟨rfl, by simp, hfrac0, hfrac1⟩
  | true =>
    cases t with
    | none => exact ⟨rfl, by simp, hfrac0, hfrac1⟩
    | some i =>
      by_cases hlt : i < (s.devices.length : Int)
      · simp only [hlt, if_true]
        cases hg : pyGet s.devices i with
        | none => exact ⟨rfl, by simp, hfrac0, hfrac1⟩
        | some d => exact ⟨rfl, by simp, hfrac0, hfrac1⟩
      · simp only [hlt, if_false]
        exact ⟨rfl, by simp, hfrac0, hfrac1⟩

theorem set_volume_in_range_one_call_witness :
    (set_volume ⟨[⟨0, "Speakers", true⟩]⟩ true 50 (some 0)).2.1 =
      [⟨(50 : Rat) / 100, some 0⟩] ∧
    (set_volume ⟨[⟨0, "Speakers", true⟩]⟩ true 50 (some 0)).1 ≠ .outOfRange ∧
    0 ≤ (50 : Rat) / 100 ∧ (50 : Rat) / 100 ≤ 1 :=
  set_volume_in_range_one_call ⟨[⟨0, "Speakers", true⟩]⟩ true 50 (some 0)
    (by decide) (by decide) (Or.inr ⟨0, rfl, by decide, by decide⟩)

/-- C6, counterexample: the enumeration query's `subprocess.run` call passes
no `timeout` keyword, so the external call is not bounded by any timeout and
may block indefinitely, contrary to the claim. -/
theorem enum_query_no_timeout_counterexample :
    enumQueryConfig.timeout = none ∧ setVolumeConfig.timeout = none :=
  ⟨rfl, rfl⟩

/-- C6, amended: the enumeration query is issued without any timeout bound;
the three failure modes the code does handle — non-zero exit, a missing query
facility, and malformed output — are treated identically, each triggering the
same fallback. -/
theorem enum_failure_modes_uniform (s : SpeakerUpState) :
    enumQueryConfig.timeout = none ∧
    get_audio_devices s .nonZeroExit = getDevicesFallback s ∧
    get_audio_devices s .fileNotFound = getDevicesFallback s ∧
    get_audio_devices s (.success .malformed) = getDevicesFallback s :=
  ⟨rfl, rfl, rfl, rfl⟩

/-- C7, counterexample: with snapshot `[{Index 0, "Speakers", default}]`, the
call `set_volume 50 (some (-1))` succeeds and acknowledges "Speakers" — the
negative index wraps around Python-style to the last entry — although -1 is
the 0-based ordinal of no entry of the snapshot, so under the specification's
resolution rule the acknowledgment should have carried "Default Device". -/
theorem ack_name_counterexample :
    (set_volume ⟨[⟨0, "Speakers", true⟩]⟩ true 50 (some (-1))).1 =
      .ok "Speakers" ∧
    resolveNameSpec [⟨0, "Speakers", true⟩] (some (-1)) = "Default Device" ∧
    ("Speakers" : String) ≠ "Default Device" := by
  refine ⟨rfl, rfl, by decide⟩

/-- C7, amended: on success, `set_volume`'s acknowledgment carries
"Default Device" when the target is absent, and otherwise the name obtained
by Python list indexing of the snapshot at the target index — negative
indices resolve from the end of the list — falling back to "Default Device"
when that indexing finds no entry. -/
theorem ack_name_python_indexing (s : SpeakerUpState) (osOk : Bool) (p : Int)
    (t : Option Int) (name : String)
    (h : (set_volume s osOk p t).1 = .ok name) :
    name = resolveNamePy s.devices t := by
  unfold set_volume at h
  by_cases hp : p < 0 ∨ 100 < p
  · rw [if_pos hp] at h
    exact absurd h (by simp)
  · rw [if_neg hp] at h
    cases osOk with
    | false => exact absurd h (by simp)
    | true =>
      cases t with
      | none =>
        simp only [if_true, SetVolumeResult.ok.injEq] at h
        rw [← h]
        rfl
      | some i =>
        by_cases hlt : i < (s.devices.length : Int)
        · simp only [hlt, if_true] at h
          cases hg : pyGet s.devices i with
          | none => rw [hg] at h; exact absurd h (by simp)
          | some d =>
            rw [hg] at h
            simp only [SetVolumeResult.ok.injEq] at h
            rw [← h, resolveNamePy, hg]
        · simp only [if_true, hlt, if_false, SetVolumeResult.ok.injEq] at h
          rw [← h, resolveNamePy,
            pyGet_eq_none_of_le s.devices i (by omega)]

theorem ack_name_python_indexing_witness :
    ("Speakers" : String) =
      resolveNamePy [⟨0, "Speakers", true⟩] (some (-1)) :=
  ack_name_python_indexing ⟨[⟨0, "Speakers", true⟩]⟩ true 50 (some (-1))
    "Speakers" rfl

/-- C8: with a deterministic underlying OS response, a repeated
`list_devices` call yields the identical device list: the second call either
reuses the non-empty cached list or reproduces the same enumeration. -/
theorem list_devices_idempotent (s : SpeakerUpState) (os : EnumResult) :
    (list_devices (list_devices s os).2 os).2 = (list_devices s os).2 := by
  by_cases he : s.devices.isEmpty
  · cases os with
    | success out =>
      cases out with
      | objList ds =>
        by_cases hd : ds.isEmpty
        · simp [list_devices, get_audio_devices, he, hd]
        · simp [list_devices, get_audio_devices, he, hd]
      | singleObj d => simp [list_devices, get_audio_devices, he]
      | malformed =>
        simp [list_devices, get_audio_devices, getDevicesFallback, he,
          fallbackDevice]
    | nonZeroExit =>
      simp [list_devices, get_audio_devices, getDevicesFallback, he,
        fallbackDevice]
    | fileNotFound =>
      simp [list_devices, get_audio_devices, getDevicesFallback, he,
        fallbackDevice]
  · simp [list_devices, he]

/-- C9, counterexample: if the OS query reports two devices both flagged
default, `get_audio_devices` stores both flags verbatim, so the produced
DeviceList has two devices with `Default = true` — the at-most-one-default
invariant is not enforced by the code. -/
theorem two_defaults_counterexample :
    ¬ ((get_audio_devices ⟨[]⟩ (.success (.objList
        [⟨0, "Speakers", true⟩, ⟨1, "Headset", true⟩]))).2.devices.countP
          (fun d => d.default) ≤ 1) ∧
    ((get_audio_devices ⟨[]⟩ (.success (.objList
        [⟨0, "Speakers", true⟩, ⟨1, "Headset", true⟩]))).2.devices.countP
          (fun d => d.default)) = 2 := by
  refine ⟨by decide, rfl⟩

/-- C9, amended: the enumeration preserves the at-most-one-default invariant
rather than enforcing it: whenever the OS-reported list itself flags at most
one device as default, the produced DeviceList has at most one default; the
single-object and fallback paths always produce exactly at most one
default. -/
theorem at_most_one_default_preserved (s : SpeakerUpState) (os : EnumResult)
    (h : ∀ ds, os = .success (.objList ds) →
      ds.countP (fun d => d.default) ≤ 1) :
    ((get_audio_devices s os).2.devices.countP (fun d => d.default)) ≤ 1 := by
  cases os with
  | success out =>
    cases out with
    | objList ds => exact h ds rfl
    | singleObj d =>
      simp only [get_audio_devices]
      exact le_trans (List.countP_le_length _) (by simp)
    | malformed => exact le_of_eq (by rfl)
  | nonZeroExit => exact le_of_eq (by rfl)
  | fileNotFound => exact le_of_eq (by rfl)

theorem at_most_one_default_preserved_witness :
    ((get_audio_devices ⟨[]⟩ (.success (.objList
        [⟨0, "Speakers", true⟩, ⟨1, "Headset", false⟩]))).2.devices.countP
          (fun d => d.default)) ≤ 1 :=
  at_most_one_default_preserved ⟨[]⟩
    (.success (.objList [⟨0, "Speakers", true⟩, ⟨1, "Headset", false⟩]))
    (by intro ds hds
        cases hds
        decide)

/-- C10: `set_volume` never writes `self.devices`: for every percent, target
and OS outcome, the stored device list after the call is the one before it. -/
theorem set_volume_preserves_devices (s : SpeakerUpState) (osOk : Bool)
    (p : Int) (t : Option Int) :
    ((set_volume s osOk p t).2.2).devices = s.devices := by
  unfold set_volume
  by_cases hp : p < 0 ∨ 100 < p
  · rw [if_pos hp]
  · rw [if_neg hp]
    cases osOk with
    | false => rfl
    | true =>
      cases t with
      | none => rfl
      | some i =>
        by_cases hlt : i < (s.devices.length : Int)
        · simp only [hlt, if_true]
          cases hg : pyGet s.devices i <;> rfl
        · simp [hlt]
